import Mathlib

/-!
Verification of the statistical inference and decision engine of the
`ab-testing-pro` repository (`src/utils/statistics.ts`, class
`StatisticsCalculator`, together with the data model of
`src/types/index.ts`).

The TypeScript functions compute over IEEE numbers; they are embedded here
over `ℝ`.  The only places where the JavaScript number semantics differs
observably from real arithmetic inside the guarded code paths are divisions
whose denominator can be `0` (JavaScript yields `NaN` or `±Infinity` there)
and the literal `Infinity` assigned by `calculateROI`.  Those spots are
modelled with the explicit extended domain `JsNum` below, so that `NaN` and
`±Infinity` outcomes of the source are visible in the embedding;
everywhere else the denominators are provably nonzero on the code paths on
which the values are produced.
-/

namespace ABTestingPro

/-- Extended JavaScript-number domain for the fields that can receive the
IEEE special values `NaN` or `±Infinity` in the source. -/
inductive JsNum where
  | real : ℝ → JsNum
  | posInf : JsNum
  | negInf : JsNum
  | nan : JsNum

/-- JavaScript division `a / b` of two ordinary (finite) numbers:
`0/0 = NaN`, `a/0 = ±Infinity` for `a ≠ 0`, ordinary division otherwise. -/
noncomputable def jsDiv (a b : ℝ) : JsNum :=
  if b = 0 then
    if a = 0 then .nan else if 0 < a then .posInf else .negInf
  else .real (a / b)

/-- JavaScript `Math.ceil`: the identity on `NaN` and `±Infinity`,
the integer ceiling on finite numbers. -/
noncomputable def jsCeil : JsNum → JsNum
  | .real x => .real (⌈x⌉ : ℤ)
  | .posInf => .posInf
  | .negInf => .negInf
  | .nan => .nan

/-- JavaScript comparison `v < c` of a possibly special number against a
finite number: `NaN < c` is false, `Infinity < c` is false,
`-Infinity < c` is true. -/
def JsNum.ltR : JsNum → ℝ → Prop
  | .real x, c => x < c
  | .posInf, _ => False
  | .negInf, _ => True
  | .nan, _ => False

/-- The value is an ordinary finite number (not `NaN`, not `±Infinity`). -/
def JsNum.isFinite : JsNum → Prop
  | .real _ => True
  | _ => False

/-- Negation on the extended domain (`-NaN = NaN`). -/
def JsNum.neg : JsNum → JsNum
  | .real x => .real (-x)
  | .posInf => .negInf
  | .negInf => .posInf
  | .nan => .nan

theorem jsDiv_of_ne_zero (a b : ℝ) (h : b ≠ 0) : jsDiv a b = .real (a / b) := by
  simp [jsDiv, h]

theorem jsDiv_zero_zero : jsDiv 0 0 = .nan := by
  simp [jsDiv]

/-- Interface `TestData` from `src/types/index.ts`: observed conversion counts, all
non-negative integers. -/
structure TestData where
  controlConversions : ℕ
  controlTotal : ℕ
  treatmentConversions : ℕ
  treatmentTotal : ℕ

/-- Interface `TestConfiguration` from `src/types/index.ts`.  The categorical string
tags `industry` and `testType` are carried along verbatim; the engine never
reads them. -/
structure TestConfiguration where
  baselineRate : ℝ
  minimumDetectableEffect : ℝ
  alpha : ℝ
  power : ℝ
  trafficSplit : ℝ
  testDuration : ℝ
  dailyTraffic : ℝ
  costPerVisitor : ℝ
  revenuePerConversion : ℝ
  industry : String
  testType : String

/-- Interface `StatisticalResults` from `src/types/index.ts`.  `zScore`, `pValue` and
`requiredSampleSize` live in the extended domain because the source can put
`NaN`/`Infinity` there (unguarded divisions); `isSignificant` is the
truth value of the source's comparison `pValue < 0.05`. -/
structure StatisticalResults where
  controlRate : ℝ
  treatmentRate : ℝ
  lift : ℝ
  pValue : JsNum
  zScore : JsNum
  standardError : ℝ
  confidenceInterval : ℝ × ℝ
  isSignificant : Prop
  effectSize : ℝ
  requiredSampleSize : JsNum

/-- A Beta-distribution shape pair, as in `BayesianResults` of
`src/types/index.ts`. -/
structure BetaDistribution where
  alpha : ℝ
  beta : ℝ

/-- Interface `BayesianResults` from `src/types/index.ts`. -/
structure BayesianResults where
  probabilityBWins : ℝ
  expectedLift : ℝ
  credibleInterval : ℝ × ℝ
  posteriorA : BetaDistribution
  posteriorB : BetaDistribution

/-- Interface `ROIAnalysis` from `src/types/index.ts`.  `paybackPeriod` lives in the
extended domain because the source assigns the literal `Infinity` to it. -/
structure ROIAnalysis where
  totalCost : ℝ
  additionalRevenue : ℝ
  netPresentValue : ℝ
  roi : ℝ
  paybackPeriod : JsNum
  annualizedRevenue : ℝ
  riskAdjustedReturn : ℝ

/-! ## Numeric primitives (`erf`, `normalCDF`, `normalInverse`) -/

/-- Function `StatisticsCalculator.erf`: the Abramowitz–Stegun five-term rational
approximation of the error function, transcribed from the source. -/
noncomputable def erf (x : ℝ) : ℝ :=
  let a1 : ℝ := 0.254829592
  let a2 : ℝ := -0.284496736
  let a3 : ℝ := 1.421413741
  let a4 : ℝ := -1.453152027
  let a5 : ℝ := 1.061405429
  let p : ℝ := 0.3275911
  let sign : ℝ := if x < 0 then -1 else 1
  let y := |x|
  let t := 1.0 / (1.0 + p * y)
  sign * (1.0 - (((((a5 * t + a4) * t) + a3) * t + a2) * t + a1) * t * Real.exp (-(y * y)))

/-- Function `StatisticsCalculator.normalCDF`. -/
noncomputable def normalCDF (x : ℝ) : ℝ :=
  (1 + erf (x / Real.sqrt 2)) / 2

/-- The central-region rational approximation used by
`StatisticsCalculator.normalInverse` for `p ≤ 0.5`. -/
noncomputable def normalInverseCore (p : ℝ) : ℝ :=
  let c0 : ℝ := 2.515517
  let c1 : ℝ := 0.802853
  let c2 : ℝ := 0.010328
  let d1 : ℝ := 1.432788
  let d2 : ℝ := 0.189269
  let d3 : ℝ := 0.001308
  let t := Real.sqrt (-2 * Real.log p)
  t - (c0 + c1 * t + c2 * t * t) / (1 + d1 * t + d2 * t * t + d3 * t * t * t)

/-- Total value of `StatisticsCalculator.normalInverse` on `(0,1)`.  The
source's recursive call `-normalInverse(1-p)` for `p > 0.5` always lands in
the central branch (its argument lies in `(0, 0.5)`), so one reflection step
is exact. -/
noncomputable def normalInverseFn (p : ℝ) : ℝ :=
  if 1 / 2 < p then -normalInverseCore (1 - p) else normalInverseCore p

/-- Function `StatisticsCalculator.normalInverse` with its domain guard:
throws for `p ≤ 0` or `p ≥ 1`. -/
noncomputable def normalInverse (p : ℝ) : Except String ℝ :=
  if p ≤ 0 ∨ 1 ≤ p then .error "p must be between 0 and 1"
  else .ok (normalInverseFn p)

/-! ## Frequentist analyzer (`performZTest`) -/

/-- Observed control conversion rate, `controlConversions / controlTotal`. -/
noncomputable def controlRateOf (d : TestData) : ℝ :=
  (d.controlConversions : ℝ) / (d.controlTotal : ℝ)

/-- Observed treatment conversion rate. -/
noncomputable def treatmentRateOf (d : TestData) : ℝ :=
  (d.treatmentConversions : ℝ) / (d.treatmentTotal : ℝ)

/-- Pooled proportion used for the standard error. -/
noncomputable def pooledRateOf (d : TestData) : ℝ :=
  ((d.controlConversions : ℝ) + (d.treatmentConversions : ℝ)) /
    ((d.controlTotal : ℝ) + (d.treatmentTotal : ℝ))

/-- Pooled standard error `√(p̄(1-p̄)(1/n1+1/n2))`. -/
noncomputable def standardErrorOf (d : TestData) : ℝ :=
  Real.sqrt (pooledRateOf d * (1 - pooledRateOf d) *
    (1 / (d.controlTotal : ℝ) + 1 / (d.treatmentTotal : ℝ)))

/-- The z-score `(treatmentRate - controlRate) / standardError`; the source
divides without guarding against a zero standard error, so the value lives
in the extended domain. -/
noncomputable def zScoreOf (d : TestData) : JsNum :=
  jsDiv (treatmentRateOf d - controlRateOf d) (standardErrorOf d)

/-- The two-tailed p-value `2·(1 - normalCDF(|z|))`, evaluated on the
extended domain: a `NaN` z-score propagates to a `NaN` p-value, and for an
infinite z-score the source's `erf` evaluates to `1` (its rational factor
`t` becomes `0` and `exp(-∞) = 0`), giving p-value `0`. -/
noncomputable def pValueOf : JsNum → JsNum
  | .real z => .real (2 * (1 - normalCDF |z|))
  | .posInf => .real 0
  | .negInf => .real 0
  | .nan => .nan

/-- Function `StatisticsCalculator.calculateSampleSizeFromData` (private helper of
`performZTest`): fixed 95% confidence / 80% power, unguarded division by the
squared rate difference.  The literals `0.975` and `0.8` lie in `(0,1)`, so
the `normalInverse` calls cannot throw and are embedded by their total
value. -/
noncomputable def calculateSampleSizeFromData (controlRate treatmentRate : ℝ) : JsNum :=
  let pooledRate := (controlRate + treatmentRate) / 2
  let effect := |treatmentRate - controlRate|
  let zAlpha := normalInverseFn 0.975
  let zBeta := normalInverseFn 0.8
  let numerator := (zAlpha + zBeta) ^ 2 * 2 * pooledRate * (1 - pooledRate)
  jsCeil (jsDiv numerator (effect ^ 2))

/-- The `StatisticalResults` record built by `performZTest` once the
sample-size guard has passed.  Each field follows the corresponding source
line; the source's ternary guards on `controlRate !== 0` are the
if-then-else expressions. -/
noncomputable def zTestResult (d : TestData) : StatisticalResults :=
  let controlRate := controlRateOf d
  let treatmentRate := treatmentRateOf d
  let zScore := zScoreOf d
  let pValue := pValueOf zScore
  let lift := if controlRate ≠ 0 then ((treatmentRate - controlRate) / controlRate) * 100 else 0
  let effectSize := 2 * (Real.arcsin (Real.sqrt treatmentRate) - Real.arcsin (Real.sqrt controlRate))
  let diffStandardError := Real.sqrt
    (controlRate * (1 - controlRate) / (d.controlTotal : ℝ) +
     treatmentRate * (1 - treatmentRate) / (d.treatmentTotal : ℝ))
  let marginOfError := 1.96 * diffStandardError
  let diffLower := (treatmentRate - controlRate) - marginOfError
  let diffUpper := (treatmentRate - controlRate) + marginOfError
  let liftLower := if controlRate ≠ 0 then (diffLower / controlRate) * 100 else 0
  let liftUpper := if controlRate ≠ 0 then (diffUpper / controlRate) * 100 else 0
  { controlRate := controlRate
    treatmentRate := treatmentRate
    lift := lift
    pValue := pValue
    zScore := zScore
    standardError := standardErrorOf d
    confidenceInterval := (liftLower, liftUpper)
    isSignificant := pValue.ltR 0.05
    effectSize := effectSize
    requiredSampleSize := calculateSampleSizeFromData controlRate treatmentRate }

/-- Function `StatisticsCalculator.performZTest`: throws when either total is zero,
otherwise returns the assembled results. -/
noncomputable def performZTest (testData : TestData) : Except String StatisticalResults :=
  if testData.controlTotal = 0 ∨ testData.treatmentTotal = 0 then
    .error "Sample sizes must be greater than 0"
  else
    .ok (zTestResult testData)

/-! ## Bayesian analyzer (`performBayesianAnalysis`)

The source draws from the posteriors with `betaRandom`, a rejection sampler
over the runtime's ambient uniform source (`Math.random`).  The embedding
abstracts that irreducibly random primitive as a parameter
`betaSample i a b`, the value of the `i`-th `betaRandom(a, b)` call; every
other step of `performBayesianAnalysis` is deterministic and is embedded
verbatim. -/

/-- Function `StatisticsCalculator.performBayesianAnalysis` with uniform `Beta(1,1)`
priors; note that the source performs no validation of the counts at all. -/
noncomputable def performBayesianAnalysis (betaSample : ℕ → ℝ → ℝ → ℝ)
    (testData : TestData) : BayesianResults :=
  let priorAlpha : ℝ := 1
  let priorBeta : ℝ := 1
  let posteriorA : BetaDistribution :=
    { alpha := priorAlpha + (testData.controlConversions : ℝ)
      beta := priorBeta + (testData.controlTotal : ℝ) - (testData.controlConversions : ℝ) }
  let posteriorB : BetaDistribution :=
    { alpha := priorAlpha + (testData.treatmentConversions : ℝ)
      beta := priorBeta + (testData.treatmentTotal : ℝ) - (testData.treatmentConversions : ℝ) }
  let simulations : ℕ := 100000
  let sampleA : ℕ → ℝ := fun i => betaSample (2 * i) posteriorA.alpha posteriorA.beta
  let sampleB : ℕ → ℝ := fun i => betaSample (2 * i + 1) posteriorB.alpha posteriorB.beta
  let bWinsCount := ((Finset.range simulations).filter fun i => sampleA i < sampleB i).card
  let liftAt : ℕ → ℝ := fun i =>
    if sampleA i ≠ 0 then ((sampleB i - sampleA i) / sampleA i) * 100 else 0
  let liftSum := ∑ i ∈ Finset.range simulations, liftAt i
  let probabilityBWins := (bWinsCount : ℝ) / (simulations : ℝ)
  let expectedLift := liftSum / (simulations : ℝ)
  let ciDraws : ℕ := 10000
  let ciSampleA : ℕ → ℝ := fun i =>
    betaSample (2 * simulations + 2 * i) posteriorA.alpha posteriorA.beta
  let ciSampleB : ℕ → ℝ := fun i =>
    betaSample (2 * simulations + 2 * i + 1) posteriorB.alpha posteriorB.beta
  let liftSamples : List ℝ := (List.range ciDraws).map fun i =>
    if ciSampleA i ≠ 0 then ((ciSampleB i - ciSampleA i) / ciSampleA i) * 100 else 0
  let sorted := liftSamples.insertionSort (· ≤ ·)
  let credibleInterval : ℝ × ℝ :=
    (sorted.getD ⌊(0.025 : ℝ) * (liftSamples.length : ℝ)⌋₊ 0,
     sorted.getD ⌊(0.975 : ℝ) * (liftSamples.length : ℝ)⌋₊ 0)
  { probabilityBWins := probabilityBWins
    expectedLift := expectedLift
    credibleInterval := credibleInterval
    posteriorA := posteriorA
    posteriorB := posteriorB }

/-! ## ROI evaluator (`calculateROI`) -/

/-- Function `StatisticsCalculator.calculateROI`.  The `paybackPeriod` ternary of the
source assigns the literal `Infinity` when `additionalRevenue` is not
positive, so that field lives in the extended domain.  (With
`additionalRevenue > 0` and `testDuration = 0`, JavaScript evaluates
`totalCost / (additionalRevenue / 0)` to `totalCost / Infinity = 0`, which
coincides with the real-division convention used here.) -/
noncomputable def calculateROI (testData : TestData) (testConfig : TestConfiguration)
    (statisticalResults : StatisticalResults) : ROIAnalysis :=
  let totalVisitors : ℝ := (testData.treatmentTotal : ℝ) * 2
  let testingCost := totalVisitors * testConfig.costPerVisitor
  let opportunityCost := testConfig.dailyTraffic * (testConfig.testDuration / 2) *
    testConfig.costPerVisitor * 0.1
  let totalCost := testingCost + opportunityCost
  let controlRevenue := statisticalResults.controlRate * (testData.treatmentTotal : ℝ) *
    testConfig.revenuePerConversion
  let treatmentRevenue := statisticalResults.treatmentRate * (testData.treatmentTotal : ℝ) *
    testConfig.revenuePerConversion
  let additionalRevenue := treatmentRevenue - controlRevenue
  let netPresentValue := additionalRevenue - totalCost
  let roi := if totalCost ≠ 0 then (netPresentValue / totalCost) * 100 else 0
  let paybackPeriod : JsNum :=
    if 0 < additionalRevenue then
      .real (totalCost / (additionalRevenue / testConfig.testDuration))
    else .posInf
  let annualizedRevenue := additionalRevenue * (365 / testConfig.testDuration)
  let riskAdjustedReturn := netPresentValue * 0.8
  { totalCost := totalCost
    additionalRevenue := additionalRevenue
    netPresentValue := netPresentValue
    roi := roi
    paybackPeriod := paybackPeriod
    annualizedRevenue := annualizedRevenue
    riskAdjustedReturn := riskAdjustedReturn }

/-! ## Sample size planner (`calculateSampleSize`) -/

/-- Function `StatisticsCalculator.calculateSampleSize`: converts the configured
rates to proportions (`p2` is a relative lift over `p1`), obtains the two
z-quantiles through the guarded `normalInverse` (which throws for arguments
outside `(0,1)`), and divides by `(p2 - p1)^2` without any further guard, so
the returned number lives in the extended domain. -/
noncomputable def calculateSampleSize (config : TestConfiguration) : Except String JsNum := do
  let p1 := config.baselineRate / 100
  let p2 := p1 * (1 + config.minimumDetectableEffect / 100)
  let zAlpha ← normalInverse (1 - config.alpha / 2)
  let zBeta ← normalInverse config.power
  let pooledP := (p1 + p2) / 2
  let numerator := (zAlpha + zBeta) ^ 2 * 2 * pooledP * (1 - pooledP)
  let denominator := (p2 - p1) ^ 2
  return jsCeil (jsDiv numerator denominator)

/-- Modelled from the spec wording of the sample-size claim: the per-arm
sample size `(zAlpha·√(2·p̄(1-p̄)) + zBeta·√(p1(1-p1)+p2(1-p2)))² / (p2-p1)²`
with `p̄ = (p1+p2)/2`, `p2 = p1·(1+mde/100)`, `zAlpha = inverseNormal(1-α/2)`
and `zBeta = inverseNormal(power)`.  Stated to be compared against the
source's `calculateSampleSize`. -/
noncomputable def specSampleSize (config : TestConfiguration) : ℝ :=
  let p1 := config.baselineRate / 100
  let p2 := p1 * (1 + config.minimumDetectableEffect / 100)
  let zAlpha := normalInverseFn (1 - config.alpha / 2)
  let zBeta := normalInverseFn config.power
  let pbar := (p1 + p2) / 2
  (zAlpha * Real.sqrt (2 * pbar * (1 - pbar)) +
      zBeta * Real.sqrt (p1 * (1 - p1) + p2 * (1 - p2))) ^ 2 / (p2 - p1) ^ 2

/-- Control/treatment arm swap on observed data. -/
def swapArms (d : TestData) : TestData :=
  { controlConversions := d.treatmentConversions
    controlTotal := d.treatmentTotal
    treatmentConversions := d.controlConversions
    treatmentTotal := d.controlTotal }

/-! ## Claim C8 -/

/-- Claim C8: for every `TestData` with non-negative integer counts and
`conversions ≤ total` in each arm, the Bayesian analyzer's `posteriorA` and
`posteriorB` are Beta shape pairs with strictly positive `alpha` and `beta`,
for any behaviour of the random beta sampler. -/
theorem bayesian_posteriors_positive (betaSample : ℕ → ℝ → ℝ → ℝ) (d : TestData)
    (h1 : d.controlConversions ≤ d.controlTotal)
    (h2 : d.treatmentConversions ≤ d.treatmentTotal) :
    (0 < (performBayesianAnalysis betaSample d).posteriorA.alpha ∧
      0 < (performBayesianAnalysis betaSample d).posteriorA.beta) ∧
    (0 < (performBayesianAnalysis betaSample d).posteriorB.alpha ∧
      0 < (performBayesianAnalysis betaSample d).posteriorB.beta) := by
  have hc1 : (d.controlConversions : ℝ) ≤ (d.controlTotal : ℝ) := Nat.cast_le.mpr h1
  have hc2 : (d.treatmentConversions : ℝ) ≤ (d.treatmentTotal : ℝ) := Nat.cast_le.mpr h2
  have hn1 : (0 : ℝ) ≤ (d.controlConversions : ℝ) := Nat.cast_nonneg _
  have hn2 : (0 : ℝ) ≤ (d.treatmentConversions : ℝ) := Nat.cast_nonneg _
  simp only [performBayesianAnalysis]
  exact ⟨⟨by linarith, by linarith⟩, ⟨by linarith, by linarith⟩⟩

/-- Witness for C8 at concrete counts `(3,10,5,10)` and a constant sampler. -/
theorem bayesian_posteriors_positive_witness :
    (3 ≤ 10 ∧ 5 ≤ 10) ∧
    ((0 < (performBayesianAnalysis (fun _ _ _ => 1/2) ⟨3, 10, 5, 10⟩).posteriorA.alpha ∧
        0 < (performBayesianAnalysis (fun _ _ _ => 1/2) ⟨3, 10, 5, 10⟩).posteriorA.beta) ∧
      (0 < (performBayesianAnalysis (fun _ _ _ => 1/2) ⟨3, 10, 5, 10⟩).posteriorB.alpha ∧
        0 < (performBayesianAnalysis (fun _ _ _ => 1/2) ⟨3, 10, 5, 10⟩).posteriorB.beta)) :=
  ⟨⟨by norm_num, by norm_num⟩,
    bayesian_posteriors_positive (fun _ _ _ => 1/2) ⟨3, 10, 5, 10⟩ (by norm_num) (by norm_num)⟩

/-! ## Claim C2 -/

/-- Claim C2 (amended): on a zero-total arm, `performZTest` fails with the
invalid-sample error, but `performBayesianAnalysis` performs no validation
at all: it still produces a full result, whose posteriors are just
prior + counts (so a zero-total arm silently yields its prior back). -/
theorem zeroTotal_frequentist_errors_bayesian_silent (betaSample : ℕ → ℝ → ℝ → ℝ)
    (d : TestData) (h : d.controlTotal = 0 ∨ d.treatmentTotal = 0) :
    performZTest d = .error "Sample sizes must be greater than 0" ∧
    (performBayesianAnalysis betaSample d).posteriorA =
      ⟨1 + (d.controlConversions : ℝ),
        1 + (d.controlTotal : ℝ) - (d.controlConversions : ℝ)⟩ ∧
    (performBayesianAnalysis betaSample d).posteriorB =
      ⟨1 + (d.treatmentConversions : ℝ),
        1 + (d.treatmentTotal : ℝ) - (d.treatmentConversions : ℝ)⟩ := by
  refine ⟨?_, ?_, ?_⟩
  · rw [performZTest, if_pos h]
  · simp only [performBayesianAnalysis]
  · simp only [performBayesianAnalysis]

/-- Witness for the C2 amended theorem at `controlTotal = 0`. -/
theorem zeroTotal_frequentist_errors_bayesian_silent_witness :
    ((0 : ℕ) = 0 ∨ (2 : ℕ) = 0) ∧
    (performZTest ⟨0, 0, 1, 2⟩ = .error "Sample sizes must be greater than 0" ∧
      (performBayesianAnalysis (fun _ _ _ => 1/2) ⟨0, 0, 1, 2⟩).posteriorA =
        ⟨1 + ((0 : ℕ) : ℝ), 1 + ((0 : ℕ) : ℝ) - ((0 : ℕ) : ℝ)⟩ ∧
      (performBayesianAnalysis (fun _ _ _ => 1/2) ⟨0, 0, 1, 2⟩).posteriorB =
        ⟨1 + ((1 : ℕ) : ℝ), 1 + ((2 : ℕ) : ℝ) - ((1 : ℕ) : ℝ)⟩) :=
  ⟨Or.inl rfl,
    zeroTotal_frequentist_errors_bayesian_silent (fun _ _ _ => 1/2) ⟨0, 0, 1, 2⟩ (Or.inl rfl)⟩

/-- Counterexample for C2 as stated: with `controlTotal = 0` the Bayesian
analyzer does not fail — it silently returns a result whose control
posterior is exactly the uniform prior `Beta(1,1)`. -/
theorem bayesian_no_zeroTotal_validation :
    (performBayesianAnalysis (fun _ _ _ => 1/2) ⟨0, 0, 1, 2⟩).posteriorA =
      ⟨1, 1⟩ ∧
    (performBayesianAnalysis (fun _ _ _ => 1/2) ⟨0, 0, 1, 2⟩).posteriorB =
      ⟨2, 2⟩ := by
  constructor
  · simp only [performBayesianAnalysis]
    norm_num
  · simp only [performBayesianAnalysis]
    norm_num

/-! ## Claim C3 -/

/-- Claim C3 (amended): whenever `additionalRevenue ≤ 0`, `calculateROI`
assigns the JavaScript value `Infinity` to the numeric `paybackPeriod` field
(the guard prevents `NaN`, but there is no separate "unbounded" sentinel:
downstream consumers receive `Infinity` in the number itself). -/
theorem paybackPeriod_infinity_on_nonpos_revenue (d : TestData)
    (cfg : TestConfiguration) (st : StatisticalResults)
    (h : (calculateROI d cfg st).additionalRevenue ≤ 0) :
    (calculateROI d cfg st).paybackPeriod = JsNum.posInf ∧
    ¬ (calculateROI d cfg st).paybackPeriod.isFinite := by
  have hlt : ¬ (0 < st.treatmentRate * (d.treatmentTotal : ℝ) * cfg.revenuePerConversion -
      st.controlRate * (d.treatmentTotal : ℝ) * cfg.revenuePerConversion) := by
    simp only [calculateROI] at h
    exact not_lt.mpr h
  constructor
  · simp only [calculateROI]
    rw [if_neg hlt]
  · simp only [calculateROI]
    rw [if_neg hlt]
    simp [JsNum.isFinite]

/-- Witness for the C3 amended theorem: equal rates make the additional
revenue zero, and `Infinity` lands in `paybackPeriod`. -/
theorem paybackPeriod_infinity_on_nonpos_revenue_witness :
    (calculateROI ⟨0, 1, 0, 1⟩
        ⟨10, 20, 0.05, 0.8, 50, 14, 1000, 0.5, 50, "ecommerce", "conversion"⟩
        ⟨0.1, 0.1, 0, .real 1, .real 0, 0, (0, 0), False, 0, .real 0⟩).additionalRevenue ≤ 0 ∧
    ((calculateROI ⟨0, 1, 0, 1⟩
        ⟨10, 20, 0.05, 0.8, 50, 14, 1000, 0.5, 50, "ecommerce", "conversion"⟩
        ⟨0.1, 0.1, 0, .real 1, .real 0, 0, (0, 0), False, 0, .real 0⟩).paybackPeriod = JsNum.posInf ∧
      ¬ (calculateROI ⟨0, 1, 0, 1⟩
        ⟨10, 20, 0.05, 0.8, 50, 14, 1000, 0.5, 50, "ecommerce", "conversion"⟩
        ⟨0.1, 0.1, 0, .real 1, .real 0, 0, (0, 0), False, 0, .real 0⟩).paybackPeriod.isFinite) :=
  ⟨by simp only [calculateROI]; norm_num,
    paybackPeriod_infinity_on_nonpos_revenue _ _ _ (by simp only [calculateROI]; norm_num)⟩

/-- Counterexample for C3 as stated: at a concrete input with
`additionalRevenue ≤ 0` the numeric `paybackPeriod` field holds `Infinity`
— no explicit unbounded sentinel distinct from the numeric value exists. -/
theorem paybackPeriod_is_infinity_example :
    (calculateROI ⟨10, 100, 10, 100⟩
        ⟨10, 20, 0.05, 0.8, 50, 14, 1000, 0.5, 50, "saas", "conversion"⟩
        ⟨0.2, 0.1, -50, .real 1, .real 0, 0, (0, 0), False, 0, .real 0⟩).additionalRevenue ≤ 0 ∧
    (calculateROI ⟨10, 100, 10, 100⟩
        ⟨10, 20, 0.05, 0.8, 50, 14, 1000, 0.5, 50, "saas", "conversion"⟩
        ⟨0.2, 0.1, -50, .real 1, .real 0, 0, (0, 0), False, 0, .real 0⟩).paybackPeriod =
      JsNum.posInf := by
  constructor
  · simp only [calculateROI]; norm_num
  · simp only [calculateROI]
    rw [if_neg (by norm_num)]

/-! ## Claim C9 -/

/-- Claim C9: for every `TestData` with both totals positive, the
confidence interval returned by `performZTest` is an ordered pair
(`lower ≤ upper`), including the degenerate `controlRate = 0` case in which
both ends are the sentinel `0`. -/
theorem confidenceInterval_ordered (d : TestData)
    (h1 : 0 < d.controlTotal) (h2 : 0 < d.treatmentTotal) :
    performZTest d = .ok (zTestResult d) ∧
    (zTestResult d).confidenceInterval.1 ≤ (zTestResult d).confidenceInterval.2 := by
  constructor
  · rw [performZTest, if_neg (by omega)]
  · simp only [zTestResult]
    by_cases hp : controlRateOf d = 0
    · simp [hp]
    · rw [if_pos hp, if_pos hp]
      have hp0 : 0 < controlRateOf d := by
        have : 0 ≤ controlRateOf d := by
          unfold controlRateOf
          positivity
        exact lt_of_le_of_ne this (Ne.symm hp)
      have hmoe : 0 ≤ 1.96 * Real.sqrt
          (controlRateOf d * (1 - controlRateOf d) / (d.controlTotal : ℝ) +
            treatmentRateOf d * (1 - treatmentRateOf d) / (d.treatmentTotal : ℝ)) := by
        have := Real.sqrt_nonneg
          (controlRateOf d * (1 - controlRateOf d) / (d.controlTotal : ℝ) +
            treatmentRateOf d * (1 - treatmentRateOf d) / (d.treatmentTotal : ℝ))
        linarith
      have hd : (treatmentRateOf d - controlRateOf d) - 1.96 * Real.sqrt
            (controlRateOf d * (1 - controlRateOf d) / (d.controlTotal : ℝ) +
              treatmentRateOf d * (1 - treatmentRateOf d) / (d.treatmentTotal : ℝ)) ≤
          (treatmentRateOf d - controlRateOf d) + 1.96 * Real.sqrt
            (controlRateOf d * (1 - controlRateOf d) / (d.controlTotal : ℝ) +
              treatmentRateOf d * (1 - treatmentRateOf d) / (d.treatmentTotal : ℝ)) := by
        linarith
      exact mul_le_mul_of_nonneg_right ((div_le_div_iff_of_pos_right hp0).mpr hd) (by norm_num)

/-- Witness for C9 at concrete counts `(1,4,2,4)`. -/
theorem confidenceInterval_ordered_witness :
    ((0 : ℕ) < 4 ∧ (0 : ℕ) < 4) ∧
    (performZTest ⟨1, 4, 2, 4⟩ = .ok (zTestResult ⟨1, 4, 2, 4⟩) ∧
      (zTestResult ⟨1, 4, 2, 4⟩).confidenceInterval.1 ≤
        (zTestResult ⟨1, 4, 2, 4⟩).confidenceInterval.2) :=
  ⟨⟨by norm_num, by norm_num⟩,
    confidenceInterval_ordered ⟨1, 4, 2, 4⟩ (by norm_num) (by norm_num)⟩

/-! ## Claim C5 -/

/-- Claim C5 (amended): when both totals are positive, the counts respect
`conversions ≤ total`, and the pooled proportion is `0` or `1` (zero pooled
standard error), `performZTest` does not fail and does not return zero: the
unguarded division `0 / 0` makes `zScore` the JavaScript value `NaN`. -/
theorem zScore_nan_when_pooled_degenerate (d : TestData)
    (h1 : 0 < d.controlTotal) (h2 : 0 < d.treatmentTotal)
    (hc1 : d.controlConversions ≤ d.controlTotal)
    (hc2 : d.treatmentConversions ≤ d.treatmentTotal)
    (hp : pooledRateOf d = 0 ∨ pooledRateOf d = 1) :
    performZTest d = .ok (zTestResult d) ∧ (zTestResult d).zScore = JsNum.nan := by
  have hden : (0 : ℝ) < (d.controlTotal : ℝ) + (d.treatmentTotal : ℝ) := by
    have : (0 : ℝ) < (d.controlTotal : ℝ) := by exact_mod_cast h1
    have : (0 : ℝ) ≤ (d.treatmentTotal : ℝ) := Nat.cast_nonneg _
    linarith
  have hn1 : ((d.controlTotal : ℝ)) ≠ 0 := by
    have : (0 : ℝ) < (d.controlTotal : ℝ) := by exact_mod_cast h1
    linarith
  have hn2 : ((d.treatmentTotal : ℝ)) ≠ 0 := by
    have : (0 : ℝ) < (d.treatmentTotal : ℝ) := by exact_mod_cast h2
    linarith
  have hkey : controlRateOf d = treatmentRateOf d ∧ standardErrorOf d = 0 := by
    rcases hp with hp | hp
    · have hsum : (d.controlConversions : ℝ) + (d.treatmentConversions : ℝ) = 0 := by
        have := hp
        rw [pooledRateOf, div_eq_zero_iff] at this
        rcases this with h | h
        · exact h
        · exact absurd h (by linarith)
      have hc0 : (d.controlConversions : ℝ) = 0 ∧ (d.treatmentConversions : ℝ) = 0 := by
        constructor <;> nlinarith [Nat.cast_nonneg (α := ℝ) d.controlConversions,
          Nat.cast_nonneg (α := ℝ) d.treatmentConversions]
      constructor
      · rw [controlRateOf, treatmentRateOf, hc0.1, hc0.2]
        simp
      · rw [standardErrorOf, hp]
        norm_num
    · have hsum : (d.controlConversions : ℝ) + (d.treatmentConversions : ℝ) =
          (d.controlTotal : ℝ) + (d.treatmentTotal : ℝ) := by
        have := hp
        rw [pooledRateOf, div_eq_one_iff_eq (by linarith)] at this
        exact this
      have hNat : d.controlConversions + d.treatmentConversions =
          d.controlTotal + d.treatmentTotal := by exact_mod_cast hsum
      have he1 : d.controlConversions = d.controlTotal := by omega
      have he2 : d.treatmentConversions = d.treatmentTotal := by omega
      constructor
      · rw [controlRateOf, treatmentRateOf, he1, he2, div_self hn1, div_self hn2]
      · rw [standardErrorOf, hp]
        norm_num
  refine ⟨by rw [performZTest, if_neg (by omega)], ?_⟩
  simp only [zTestResult, zScoreOf]
  rw [hkey.1, hkey.2, sub_self, jsDiv_zero_zero]

/-- Witness for the C5 amended theorem at counts `(5,5,5,5)`
(pooled proportion `1`). -/
theorem zScore_nan_when_pooled_degenerate_witness :
    ((0 : ℕ) < 5 ∧ 5 ≤ 5 ∧ pooledRateOf ⟨5, 5, 5, 5⟩ = 1) ∧
    (performZTest ⟨5, 5, 5, 5⟩ = .ok (zTestResult ⟨5, 5, 5, 5⟩) ∧
      (zTestResult ⟨5, 5, 5, 5⟩).zScore = JsNum.nan) :=
  ⟨⟨by norm_num, by norm_num, by rw [pooledRateOf]; norm_num⟩,
    zScore_nan_when_pooled_degenerate ⟨5, 5, 5, 5⟩ (by norm_num) (by norm_num)
      (by norm_num) (by norm_num) (Or.inr (by rw [pooledRateOf]; norm_num))⟩

/-- Counterexample for C5 as stated: at counts `(0,5,0,5)` (pooled
proportion `0`) the analyzer neither fails nor returns `zScore = 0`: it
succeeds with `zScore = NaN`. -/
theorem zScore_nan_example :
    performZTest ⟨0, 5, 0, 5⟩ = .ok (zTestResult ⟨0, 5, 0, 5⟩) ∧
    (zTestResult ⟨0, 5, 0, 5⟩).zScore = JsNum.nan ∧
    (zTestResult ⟨0, 5, 0, 5⟩).zScore ≠ JsNum.real 0 := by
  have hz : (zTestResult ⟨0, 5, 0, 5⟩).zScore = JsNum.nan := by
    simp only [zTestResult, zScoreOf, controlRateOf, treatmentRateOf, standardErrorOf,
      pooledRateOf]
    norm_num [Real.sqrt_zero, jsDiv]
  refine ⟨by rw [performZTest, if_neg (by decide)], hz, ?_⟩
  rw [hz]
  simp

/-! ## Claim C1 -/

/-- The p-value produced for a zero z-score: the Abramowitz–Stegun
coefficients of the source sum to `0.999999999` exactly, so
`erf 0 = 10⁻⁹` and the two-tailed p-value at `z = 0` is `0.999999999`. -/
theorem pValueOf_zero : pValueOf (.real 0) = .real 0.999999999 := by
  simp only [pValueOf, normalCDF, erf, abs_zero, zero_div]
  norm_num [Real.exp_zero]

/-- Claim C1 (amended): `performZTest` takes no alpha parameter; every
result's `isSignificant` is the comparison of its p-value against the
hardcoded constant `0.05`, where the p-value is obtained from the z-score by
the two-tailed formula `pValueOf`. -/
theorem isSignificant_threshold_hardcoded (d : TestData) (r : StatisticalResults)
    (h : performZTest d = .ok r) :
    r.isSignificant ↔ (pValueOf r.zScore).ltR 0.05 := by
  rw [performZTest] at h
  by_cases hz : d.controlTotal = 0 ∨ d.treatmentTotal = 0
  · rw [if_pos hz] at h
    exact absurd h (by simp)
  · rw [if_neg hz] at h
    have hr : r = zTestResult d := by
      injection h with h
      exact h.symm
    subst hr
    exact Iff.rfl

/-- Witness for the C1 amended theorem at counts `(1,2,1,2)`. -/
theorem isSignificant_threshold_hardcoded_witness :
    performZTest ⟨1, 2, 1, 2⟩ = .ok (zTestResult ⟨1, 2, 1, 2⟩) ∧
    ((zTestResult ⟨1, 2, 1, 2⟩).isSignificant ↔
      (pValueOf (zTestResult ⟨1, 2, 1, 2⟩).zScore).ltR 0.05) :=
  ⟨by rw [performZTest, if_neg (by decide)],
    isSignificant_threshold_hardcoded ⟨1, 2, 1, 2⟩ (zTestResult ⟨1, 2, 1, 2⟩)
      (by rw [performZTest, if_neg (by decide)])⟩

/-- Counterexample for C1 as stated: at counts `(1,2,1,2)` the p-value is
`0.999999999`; for the caller-chosen significance level
`alpha = 0.9999999995 ∈ (0,1)` we have `pValue < alpha`, yet
`isSignificant` is false — the engine compares against a hardcoded `0.05`
and accepts no alpha parameter. -/
theorem isSignificant_ignores_caller_alpha :
    ((0 : ℝ) < 0.9999999995 ∧ (0.9999999995 : ℝ) < 1) ∧
    performZTest ⟨1, 2, 1, 2⟩ = .ok (zTestResult ⟨1, 2, 1, 2⟩) ∧
    (zTestResult ⟨1, 2, 1, 2⟩).pValue.ltR 0.9999999995 ∧
    ¬ (zTestResult ⟨1, 2, 1, 2⟩).isSignificant := by
  have hse : standardErrorOf ⟨1, 2, 1, 2⟩ ≠ 0 := by
    rw [standardErrorOf]
    rw [Real.sqrt_ne_zero']
    rw [pooledRateOf]
    norm_num
  have hz : (zTestResult ⟨1, 2, 1, 2⟩).zScore = JsNum.real 0 := by
    simp only [zTestResult, zScoreOf]
    rw [jsDiv_of_ne_zero _ _ hse]
    rw [controlRateOf, treatmentRateOf]
    norm_num
  have hpv : (zTestResult ⟨1, 2, 1, 2⟩).pValue = JsNum.real 0.999999999 := by
    have : (zTestResult ⟨1, 2, 1, 2⟩).pValue = pValueOf (zTestResult ⟨1, 2, 1, 2⟩).zScore := by
      simp only [zTestResult, zScoreOf]
    rw [this, hz, pValueOf_zero]
  have hsig : (zTestResult ⟨1, 2, 1, 2⟩).isSignificant =
      ((zTestResult ⟨1, 2, 1, 2⟩).pValue.ltR 0.05) := by
    simp only [zTestResult, zScoreOf]
  refine ⟨⟨by norm_num, by norm_num⟩, by rw [performZTest, if_neg (by decide)], ?_, ?_⟩
  · rw [hpv]
    show (0.999999999 : ℝ) < 0.9999999995
    norm_num
  · rw [hsig, hpv]
    show ¬ ((0.999999999 : ℝ) < 0.05)
    norm_num

/-! ## Claim C7 -/

theorem controlRate_swap (d : TestData) : controlRateOf (swapArms d) = treatmentRateOf d := by
  simp [controlRateOf, treatmentRateOf, swapArms]

theorem treatmentRate_swap (d : TestData) : treatmentRateOf (swapArms d) = controlRateOf d := by
  simp [controlRateOf, treatmentRateOf, swapArms]

theorem pooledRate_swap (d : TestData) : pooledRateOf (swapArms d) = pooledRateOf d := by
  simp only [pooledRateOf, swapArms]
  ring_nf

theorem standardError_swap (d : TestData) : standardErrorOf (swapArms d) = standardErrorOf d := by
  rw [standardErrorOf, standardErrorOf, pooledRate_swap]
  simp only [swapArms]
  congr 1
  ring

/-- Claim C7: with both totals positive and a nonzero pooled standard
error, swapping the arms negates the z-score exactly, leaves the p-value
and the significance verdict unchanged, and negates the relative lift up to
the asymmetric denominator factor `controlRate / treatmentRate`. -/
theorem performZTest_swap_symmetry (d : TestData)
    (h1 : 0 < d.controlTotal) (h2 : 0 < d.treatmentTotal)
    (hse : standardErrorOf d ≠ 0) :
    performZTest (swapArms d) = .ok (zTestResult (swapArms d)) ∧
    (zTestResult (swapArms d)).zScore = ((zTestResult d).zScore).neg ∧
    (zTestResult (swapArms d)).pValue = (zTestResult d).pValue ∧
    ((zTestResult (swapArms d)).isSignificant ↔ (zTestResult d).isSignificant) ∧
    (controlRateOf d ≠ 0 → treatmentRateOf d ≠ 0 →
      (zTestResult (swapArms d)).lift =
        -((zTestResult d).lift) * (controlRateOf d / treatmentRateOf d)) := by
  have hses : standardErrorOf (swapArms d) ≠ 0 := by
    rw [standardError_swap]; exact hse
  have hz : zScoreOf (swapArms d) = (zScoreOf d).neg := by
    rw [zScoreOf, zScoreOf, controlRate_swap, treatmentRate_swap, standardError_swap,
      jsDiv_of_ne_zero _ _ hse, jsDiv_of_ne_zero _ _ hse]
    simp only [JsNum.neg, JsNum.real.injEq]
    ring
  have hpv : pValueOf (zScoreOf (swapArms d)) = pValueOf (zScoreOf d) := by
    rw [hz, zScoreOf, jsDiv_of_ne_zero _ _ hse]
    simp only [JsNum.neg, pValueOf, abs_neg]
  refine ⟨?_, ?_, ?_, ?_, ?_⟩
  · rw [performZTest, if_neg (by simp only [swapArms]; omega)]
  · simp only [zTestResult]
    exact hz
  · simp only [zTestResult]
    exact hpv
  · simp only [zTestResult]
    rw [hpv]
  · intro hp1 hp2
    simp only [zTestResult]
    rw [controlRate_swap, treatmentRate_swap, if_pos hp2, if_pos hp1]
    field_simp
    ring

/-- Witness for C7 at concrete counts `(1,4,2,4)`. -/
theorem performZTest_swap_symmetry_witness :
    (standardErrorOf ⟨1, 4, 2, 4⟩ ≠ 0 ∧
      controlRateOf ⟨1, 4, 2, 4⟩ ≠ 0 ∧ treatmentRateOf ⟨1, 4, 2, 4⟩ ≠ 0) ∧
    (performZTest (swapArms ⟨1, 4, 2, 4⟩) = .ok (zTestResult (swapArms ⟨1, 4, 2, 4⟩)) ∧
      (zTestResult (swapArms ⟨1, 4, 2, 4⟩)).zScore = ((zTestResult ⟨1, 4, 2, 4⟩).zScore).neg ∧
      (zTestResult (swapArms ⟨1, 4, 2, 4⟩)).pValue = (zTestResult ⟨1, 4, 2, 4⟩).pValue ∧
      ((zTestResult (swapArms ⟨1, 4, 2, 4⟩)).isSignificant ↔
        (zTestResult ⟨1, 4, 2, 4⟩).isSignificant) ∧
      (controlRateOf ⟨1, 4, 2, 4⟩ ≠ 0 → treatmentRateOf ⟨1, 4, 2, 4⟩ ≠ 0 →
        (zTestResult (swapArms ⟨1, 4, 2, 4⟩)).lift =
          -((zTestResult ⟨1, 4, 2, 4⟩).lift) *
            (controlRateOf ⟨1, 4, 2, 4⟩ / treatmentRateOf ⟨1, 4, 2, 4⟩))) := by
  have hse : standardErrorOf ⟨1, 4, 2, 4⟩ ≠ 0 := by
    rw [standardErrorOf, Real.sqrt_ne_zero', pooledRateOf]
    norm_num
  have hp1 : controlRateOf ⟨1, 4, 2, 4⟩ ≠ 0 := by
    rw [controlRateOf]; norm_num
  have hp2 : treatmentRateOf ⟨1, 4, 2, 4⟩ ≠ 0 := by
    rw [treatmentRateOf]; norm_num
  exact ⟨⟨hse, hp1, hp2⟩,
    performZTest_swap_symmetry ⟨1, 4, 2, 4⟩ (by norm_num) (by norm_num) hse⟩

/-! ## Claim C6 -/

theorem jsCeil_jsDiv_zero_not_finite (a : ℝ) : ¬ (jsCeil (jsDiv a 0)).isFinite := by
  rw [jsDiv, if_pos rfl]
  by_cases h : a = 0
  · rw [if_pos h]
    simp [jsCeil, JsNum.isFinite]
  · rw [if_neg h]
    by_cases h2 : 0 < a
    · rw [if_pos h2]
      simp [jsCeil, JsNum.isFinite]
    · rw [if_neg h2]
      simp [jsCeil, JsNum.isFinite]

/-- When both quantile arguments pass the `normalInverse` guard, the
planner reduces to its pure pooled-variance formula. -/
theorem calculateSampleSize_eq_of_valid (cfg : TestConfiguration)
    (hA : ¬ (1 - cfg.alpha / 2 ≤ 0 ∨ (1 : ℝ) ≤ 1 - cfg.alpha / 2))
    (hP : ¬ (cfg.power ≤ 0 ∨ (1 : ℝ) ≤ cfg.power)) :
    calculateSampleSize cfg = .ok (jsCeil (jsDiv
      ((normalInverseFn (1 - cfg.alpha / 2) + normalInverseFn cfg.power) ^ 2 * 2 *
          ((cfg.baselineRate / 100 +
            cfg.baselineRate / 100 * (1 + cfg.minimumDetectableEffect / 100)) / 2) *
        (1 - (cfg.baselineRate / 100 +
            cfg.baselineRate / 100 * (1 + cfg.minimumDetectableEffect / 100)) / 2))
      ((cfg.baselineRate / 100 * (1 + cfg.minimumDetectableEffect / 100) -
          cfg.baselineRate / 100) ^ 2))) := by
  simp only [calculateSampleSize, normalInverse, hA, hP, if_false]
  rfl

theorem calculateSampleSize_err_of_bad_alpha (cfg : TestConfiguration)
    (hA : 1 - cfg.alpha / 2 ≤ 0 ∨ (1 : ℝ) ≤ 1 - cfg.alpha / 2) :
    calculateSampleSize cfg = .error "p must be between 0 and 1" := by
  simp only [calculateSampleSize, normalInverse, hA, if_true]
  rfl

theorem calculateSampleSize_err_of_bad_power (cfg : TestConfiguration)
    (hA : ¬ (1 - cfg.alpha / 2 ≤ 0 ∨ (1 : ℝ) ≤ 1 - cfg.alpha / 2))
    (hP : cfg.power ≤ 0 ∨ (1 : ℝ) ≤ cfg.power) :
    calculateSampleSize cfg = .error "p must be between 0 and 1" := by
  simp only [calculateSampleSize, normalInverse, hA, hP, if_true, if_false]
  rfl

/-- Claim C6 (amended): the planner raises its domain error exactly when
`alpha ∉ (0,2)` or `power ∉ (0,1)` — for `alpha ∈ [1,2)` the argument
`1 - alpha/2` still lies in `(0, 0.5]`, so an alpha outside `(0,1)` is
accepted; and when `p2 = p1` (baselineRate·mde = 0) the planner does not
raise at all but returns the non-finite JavaScript value produced by the
unguarded division (`Infinity` or `NaN`). -/
theorem calculateSampleSize_domain_errors (cfg : TestConfiguration) :
    ((∃ v, calculateSampleSize cfg = .ok v) ↔
      (0 < cfg.alpha ∧ cfg.alpha < 2 ∧ 0 < cfg.power ∧ cfg.power < 1)) ∧
    (cfg.baselineRate * cfg.minimumDetectableEffect = 0 →
      ∀ v, calculateSampleSize cfg = .ok v → ¬ v.isFinite) := by
  by_cases hA : (1 - cfg.alpha / 2 ≤ 0 ∨ (1 : ℝ) ≤ 1 - cfg.alpha / 2)
  · have herr := calculateSampleSize_err_of_bad_alpha cfg hA
    constructor
    · rw [herr]
      constructor
      · rintro ⟨v, hv⟩
        cases hv
      · rintro ⟨ha1, ha2, -, -⟩
        rcases hA with h | h <;> linarith
    · intro _ v hv
      rw [herr] at hv
      cases hv
  · by_cases hP : (cfg.power ≤ 0 ∨ (1 : ℝ) ≤ cfg.power)
    · have herr := calculateSampleSize_err_of_bad_power cfg hA hP
      constructor
      · rw [herr]
        constructor
        · rintro ⟨v, hv⟩
          cases hv
        · rintro ⟨-, -, hp1, hp2⟩
          rcases hP with h | h <;> linarith
      · intro _ v hv
        rw [herr] at hv
        cases hv
    · have hok := calculateSampleSize_eq_of_valid cfg hA hP
      push_neg at hA hP
      constructor
      · rw [hok]
        constructor
        · intro _
          refine ⟨by linarith [hA.1], by linarith [hA.2], hP.1, hP.2⟩
        · intro _
          exact ⟨_, rfl⟩
      · intro hbm v hv
        rw [hok] at hv
        injection hv with hv
        subst hv
        have hden : (cfg.baselineRate / 100 * (1 + cfg.minimumDetectableEffect / 100) -
            cfg.baselineRate / 100) ^ 2 = 0 := by
          have hd : cfg.baselineRate / 100 * (1 + cfg.minimumDetectableEffect / 100) -
              cfg.baselineRate / 100 =
                cfg.baselineRate * cfg.minimumDetectableEffect / 10000 := by
            ring
          rw [hd, hbm]
          norm_num
        rw [hden]
        exact jsCeil_jsDiv_zero_not_finite _

/-- Witness for the C6 amended theorem: `alpha = 1.5` (outside `(0,1)`) is
accepted, and a zero minimum detectable effect produces a non-finite
result. -/
theorem calculateSampleSize_domain_errors_witness :
    (((0 : ℝ) < 1.5 ∧ (1.5 : ℝ) < 2 ∧ (0 : ℝ) < 0.5 ∧ (0.5 : ℝ) < 1) ∧
      ∃ v, calculateSampleSize
        ⟨50, 90, 1.5, 0.5, 50, 14, 1000, 0.5, 50, "ecommerce", "conversion"⟩ = .ok v) ∧
    ((50 : ℝ) * 0 = 0 ∧
      ∀ v, calculateSampleSize
          ⟨50, 0, 0.05, 0.8, 50, 14, 1000, 0.5, 50, "ecommerce", "conversion"⟩ = .ok v →
        ¬ v.isFinite) := by
  constructor
  · refine ⟨by norm_num, ?_⟩
    exact (calculateSampleSize_domain_errors
      ⟨50, 90, 1.5, 0.5, 50, 14, 1000, 0.5, 50, "ecommerce", "conversion"⟩).1.mpr
      (by norm_num)
  · exact ⟨by norm_num,
      (calculateSampleSize_domain_errors
        ⟨50, 0, 0.05, 0.8, 50, 14, 1000, 0.5, 50, "ecommerce", "conversion"⟩).2 (by norm_num)⟩

/-- Counterexample for C6 as stated: `alpha = 1.5` lies outside `(0,1)`,
yet the planner returns a value instead of raising a domain error. -/
theorem calculateSampleSize_accepts_alpha_above_one :
    ¬ ((0 : ℝ) < 1.5 ∧ (1.5 : ℝ) < 1) ∧
    ∃ v, calculateSampleSize
      ⟨50, 90, 1.5, 0.5, 50, 14, 1000, 0.5, 50, "ecommerce", "conversion"⟩ = .ok v := by
  constructor
  · rintro ⟨-, h⟩
    norm_num at h
  · exact ⟨_, calculateSampleSize_eq_of_valid
      ⟨50, 90, 1.5, 0.5, 50, 14, 1000, 0.5, 50, "ecommerce", "conversion"⟩
      (by norm_num) (by norm_num)⟩

/-! ## Numeric bounds for the fixed quantiles

`calculateSampleSizeFromData` and the planner's formula use the source's
`normalInverse` at `0.975` and `0.8`, i.e. `-normalInverseCore` at `0.025`
and `0.2`.  The following interval bounds are derived from the Mathlib
decimal bounds on `log 2`, integer-power comparisons for `log 5`, and
monotonicity of the rational approximation on the resulting `√`-interval. -/

theorem log_five_gt : (1.60684 : ℝ) < Real.log 5 := by
  have hpow : Real.log ((2 : ℝ) ^ 51) < Real.log ((5 : ℝ) ^ 22) :=
    Real.log_lt_log (by positivity) (by norm_num)
  rw [Real.log_pow, Real.log_pow] at hpow
  have h2 := Real.log_two_gt_d9
  push_cast at hpow
  nlinarith

theorem log_five_lt : Real.log 5 < (1.60990 : ℝ) := by
  have hpow : Real.log ((5 : ℝ) ^ 31) < Real.log ((2 : ℝ) ^ 72) :=
    Real.log_lt_log (by positivity) (by norm_num)
  rw [Real.log_pow, Real.log_pow] at hpow
  have h2 := Real.log_two_lt_d9
  push_cast at hpow
  nlinarith

theorem log_forty_eq : Real.log 40 = 3 * Real.log 2 + Real.log 5 := by
  have h : (40 : ℝ) = 2 ^ 3 * 5 := by norm_num
  rw [h, Real.log_mul (by norm_num) (by norm_num), Real.log_pow]
  norm_num

theorem log_of_fortieth : Real.log 0.025 = -Real.log 40 := by
  have h : (0.025 : ℝ) = 1 / 40 := by norm_num
  rw [h, Real.log_div one_ne_zero (by norm_num), Real.log_one]
  ring

theorem log_of_fifth : Real.log 0.2 = -Real.log 5 := by
  have h : (0.2 : ℝ) = 1 / 5 := by norm_num
  rw [h, Real.log_div one_ne_zero (by norm_num), Real.log_one]
  ring

theorem tA_lb : (2.7152 : ℝ) < Real.sqrt (-2 * Real.log 0.025) := by
  rw [log_of_fortieth]
  refine (Real.lt_sqrt (by norm_num)).mpr ?_
  rw [log_forty_eq]
  nlinarith [Real.log_two_gt_d9, log_five_gt]

theorem tA_ub : Real.sqrt (-2 * Real.log 0.025) < (2.7164 : ℝ) := by
  rw [log_of_fortieth]
  refine (Real.sqrt_lt' (by norm_num)).mpr ?_
  rw [log_forty_eq]
  nlinarith [Real.log_two_lt_d9, log_five_lt]

theorem tB_lb : (1.7926 : ℝ) < Real.sqrt (-2 * Real.log 0.2) := by
  rw [log_of_fifth]
  refine (Real.lt_sqrt (by norm_num)).mpr ?_
  nlinarith [log_five_gt]

theorem tB_ub : Real.sqrt (-2 * Real.log 0.2) < (1.7944 : ℝ) := by
  rw [log_of_fifth]
  refine (Real.sqrt_lt' (by norm_num)).mpr ?_
  nlinarith [log_five_lt]

theorem coreA_bounds :
    (1.9590 : ℝ) < normalInverseCore 0.025 ∧ normalInverseCore 0.025 < (1.9608 : ℝ) := by
  have ht1 := tA_lb
  have ht2 := tA_ub
  simp only [normalInverseCore]
  set t := Real.sqrt (-2 * Real.log 0.025) with htdef
  have htp : (0 : ℝ) < t := by linarith
  have hge : (0 : ℝ) ≤ t - 2.7152 := by linarith
  have hle : (0 : ℝ) ≤ 2.7164 - t := by linarith
  have hden : (0 : ℝ) < 1 + 1.432788 * t + 0.189269 * t * t + 0.001308 * t * t * t := by
    nlinarith [mul_pos htp htp, mul_pos (mul_pos htp htp) htp]
  have hRub : (2.515517 + 0.802853 * t + 0.010328 * t * t) /
      (1 + 1.432788 * t + 0.189269 * t * t + 0.001308 * t * t * t) < 0.7562 := by
    rw [div_lt_iff₀ hden]
    nlinarith [mul_nonneg hge htp.le, mul_nonneg (mul_nonneg hge htp.le) htp.le]
  have hRlb : (0.7556 : ℝ) < (2.515517 + 0.802853 * t + 0.010328 * t * t) /
      (1 + 1.432788 * t + 0.189269 * t * t + 0.001308 * t * t * t) := by
    rw [lt_div_iff₀ hden]
    nlinarith [mul_nonneg hle htp.le, mul_nonneg (mul_nonneg hle htp.le) htp.le]
  constructor <;> nlinarith

theorem coreB_bounds :
    (0.8391 : ℝ) < normalInverseCore 0.2 ∧ normalInverseCore 0.2 < (0.8422 : ℝ) := by
  have ht1 := tB_lb
  have ht2 := tB_ub
  simp only [normalInverseCore]
  set t := Real.sqrt (-2 * Real.log 0.2) with htdef
  have htp : (0 : ℝ) < t := by linarith
  have hge : (0 : ℝ) ≤ t - 1.7926 := by linarith
  have hle : (0 : ℝ) ≤ 1.7944 - t := by linarith
  have hden : (0 : ℝ) < 1 + 1.432788 * t + 0.189269 * t * t + 0.001308 * t * t * t := by
    nlinarith [mul_pos htp htp, mul_pos (mul_pos htp htp) htp]
  have hRub : (2.515517 + 0.802853 * t + 0.010328 * t * t) /
      (1 + 1.432788 * t + 0.189269 * t * t + 0.001308 * t * t * t) < 0.9535 := by
    rw [div_lt_iff₀ hden]
    nlinarith [mul_nonneg hge htp.le, mul_nonneg (mul_nonneg hge htp.le) htp.le]
  have hRlb : (0.9522 : ℝ) < (2.515517 + 0.802853 * t + 0.010328 * t * t) /
      (1 + 1.432788 * t + 0.189269 * t * t + 0.001308 * t * t * t) := by
    rw [lt_div_iff₀ hden]
    nlinarith [mul_nonneg hle htp.le, mul_nonneg (mul_nonneg hle htp.le) htp.le]
  constructor <;> nlinarith

theorem normalInverseFn_at_0975 : normalInverseFn 0.975 = -normalInverseCore 0.025 := by
  rw [normalInverseFn, if_pos (by norm_num)]
  norm_num

theorem normalInverseFn_at_08 : normalInverseFn 0.8 = -normalInverseCore 0.2 := by
  rw [normalInverseFn, if_pos (by norm_num)]
  norm_num

/-! ## Claim C10 -/

/-- Claim C10: when both totals are positive and the observed rates are
exactly equal, `performZTest` still succeeds, but `requiredSampleSize` is
never a finite number: `calculateSampleSizeFromData` divides by the squared
rate difference with no guard, and for a pooled rate strictly between `0`
and `1` the field is exactly the JavaScript value `Infinity`. -/
theorem requiredSampleSize_infinite_on_equal_rates (d : TestData)
    (h1 : 0 < d.controlTotal) (h2 : 0 < d.treatmentTotal)
    (heq : controlRateOf d = treatmentRateOf d) :
    performZTest d = .ok (zTestResult d) ∧
    ¬ (zTestResult d).requiredSampleSize.isFinite ∧
    (0 < controlRateOf d → controlRateOf d < 1 →
      (zTestResult d).requiredSampleSize = JsNum.posInf) := by
  have hreq : (zTestResult d).requiredSampleSize =
      calculateSampleSizeFromData (controlRateOf d) (treatmentRateOf d) := by
    simp only [zTestResult]
  have habs : |treatmentRateOf d - controlRateOf d| ^ 2 = (0 : ℝ) := by
    rw [heq]
    simp
  refine ⟨by rw [performZTest, if_neg (by omega)], ?_, ?_⟩
  · rw [hreq]
    simp only [calculateSampleSizeFromData]
    rw [habs]
    exact jsCeil_jsDiv_zero_not_finite _
  · intro hp0 hp1
    rw [hreq]
    simp only [calculateSampleSizeFromData]
    rw [habs]
    have hnum : 0 < (normalInverseFn 0.975 + normalInverseFn 0.8) ^ 2 * 2 *
        ((controlRateOf d + treatmentRateOf d) / 2) *
        (1 - (controlRateOf d + treatmentRateOf d) / 2) := by
      have hzA := coreA_bounds
      have hzB := coreB_bounds
      rw [normalInverseFn_at_0975, normalInverseFn_at_08]
      have hs : normalInverseCore 0.025 + normalInverseCore 0.2 > 2.7981 := by linarith
      have hsq : (-normalInverseCore 0.025 + -normalInverseCore 0.2) ^ 2 > 2.7981 ^ 2 := by
        nlinarith
      have hpool : (controlRateOf d + treatmentRateOf d) / 2 = controlRateOf d := by
        rw [← heq]
        ring
      rw [hpool]
      have hS2 : (0 : ℝ) < (-normalInverseCore 0.025 + -normalInverseCore 0.2) ^ 2 :=
        lt_trans (by norm_num) hsq
      exact mul_pos (mul_pos (mul_pos hS2 (by norm_num)) hp0) (by linarith)
    rw [jsDiv, if_pos rfl, if_neg (ne_of_gt hnum), if_pos hnum]
    simp [jsCeil]

/-- Witness for C10 at concrete counts `(1,2,1,2)` (equal rates `1/2`). -/
theorem requiredSampleSize_infinite_on_equal_rates_witness :
    ((0 : ℕ) < 2 ∧ controlRateOf ⟨1, 2, 1, 2⟩ = treatmentRateOf ⟨1, 2, 1, 2⟩ ∧
      0 < controlRateOf ⟨1, 2, 1, 2⟩ ∧ controlRateOf ⟨1, 2, 1, 2⟩ < 1) ∧
    (performZTest ⟨1, 2, 1, 2⟩ = .ok (zTestResult ⟨1, 2, 1, 2⟩) ∧
      ¬ (zTestResult ⟨1, 2, 1, 2⟩).requiredSampleSize.isFinite ∧
      (0 < controlRateOf ⟨1, 2, 1, 2⟩ → controlRateOf ⟨1, 2, 1, 2⟩ < 1 →
        (zTestResult ⟨1, 2, 1, 2⟩).requiredSampleSize = JsNum.posInf)) := by
  have heq : controlRateOf ⟨1, 2, 1, 2⟩ = treatmentRateOf ⟨1, 2, 1, 2⟩ := by
    rw [controlRateOf, treatmentRateOf]
  have hp0 : 0 < controlRateOf ⟨1, 2, 1, 2⟩ := by
    rw [controlRateOf]; norm_num
  have hp1 : controlRateOf ⟨1, 2, 1, 2⟩ < 1 := by
    rw [controlRateOf]; norm_num
  exact ⟨⟨by norm_num, heq, hp0, hp1⟩,
    requiredSampleSize_infinite_on_equal_rates ⟨1, 2, 1, 2⟩ (by norm_num) (by norm_num) heq⟩

/-! ## Claim C4 -/

theorem jsCeil_jsDiv_eq_real (a b : ℝ) (hb : b ≠ 0) (k : ℤ) (h : ⌈a / b⌉ = k) :
    jsCeil (jsDiv a b) = .real (k : ℝ) := by
  rw [jsDiv_of_ne_zero _ _ hb]
  simp [jsCeil, h]

theorem sqrt_039875_bounds :
    (0.63146 : ℝ) < Real.sqrt 0.39875 ∧ Real.sqrt 0.39875 < (0.63147 : ℝ) :=
  ⟨(Real.lt_sqrt (by norm_num)).mpr (by norm_num),
    (Real.sqrt_lt' (by norm_num)).mpr (by norm_num)⟩

theorem sqrt_02975_bounds :
    (0.54543 : ℝ) < Real.sqrt 0.2975 ∧ Real.sqrt 0.2975 < (0.54544 : ℝ) :=
  ⟨(Real.lt_sqrt (by norm_num)).mpr (by norm_num),
    (Real.sqrt_lt' (by norm_num)).mpr (by norm_num)⟩

/-- Claim C4 (amended): the planner does scale `p2` relatively
(`p2 = p1·(1+mde/100)`), but the value it returns is the ceiling of the
*pooled-variance* expression `(zAlpha+zBeta)²·2·p̄(1-p̄) / (p2-p1)²`, not the
claimed two-radical expression. -/
theorem calculateSampleSize_pooled_formula (cfg : TestConfiguration)
    (ha1 : 0 < cfg.alpha) (ha2 : cfg.alpha < 2)
    (hp1 : 0 < cfg.power) (hp2 : cfg.power < 1)
    (hne : cfg.baselineRate * cfg.minimumDetectableEffect ≠ 0) :
    calculateSampleSize cfg = .ok (.real
      ((⌈(normalInverseFn (1 - cfg.alpha / 2) + normalInverseFn cfg.power) ^ 2 * 2 *
          ((cfg.baselineRate / 100 +
            cfg.baselineRate / 100 * (1 + cfg.minimumDetectableEffect / 100)) / 2) *
          (1 - (cfg.baselineRate / 100 +
            cfg.baselineRate / 100 * (1 + cfg.minimumDetectableEffect / 100)) / 2) /
          (cfg.baselineRate / 100 * (1 + cfg.minimumDetectableEffect / 100) -
            cfg.baselineRate / 100) ^ 2⌉ : ℤ) : ℝ)) := by
  have hden : (cfg.baselineRate / 100 * (1 + cfg.minimumDetectableEffect / 100) -
      cfg.baselineRate / 100) ^ 2 ≠ 0 := by
    have hd : cfg.baselineRate / 100 * (1 + cfg.minimumDetectableEffect / 100) -
        cfg.baselineRate / 100 = cfg.baselineRate * cfg.minimumDetectableEffect / 10000 := by
      ring
    rw [hd]
    exact pow_ne_zero _ (div_ne_zero hne (by norm_num))
  rw [calculateSampleSize_eq_of_valid cfg
    (by push_neg; constructor <;> linarith) (by push_neg; exact ⟨hp1, hp2⟩)]
  rw [jsCeil_jsDiv_eq_real _ _ hden _ rfl]

/-- Witness for the C4 amended theorem at the configuration
(baseline 50%, mde 90%, alpha 0.05, power 0.8). -/
theorem calculateSampleSize_pooled_formula_witness :
    ((0 : ℝ) < 0.05 ∧ (0.05 : ℝ) < 2 ∧ (0 : ℝ) < 0.8 ∧ (0.8 : ℝ) < 1 ∧
      (50 : ℝ) * 90 ≠ 0) ∧
    calculateSampleSize ⟨50, 90, 0.05, 0.8, 50, 14, 1000, 0.5, 50, "ecommerce", "conversion"⟩ =
      .ok (.real
        ((⌈(normalInverseFn (1 - 0.05 / 2) + normalInverseFn 0.8) ^ 2 * 2 *
            (((50 : ℝ) / 100 + 50 / 100 * (1 + 90 / 100)) / 2) *
            (1 - ((50 : ℝ) / 100 + 50 / 100 * (1 + 90 / 100)) / 2) /
            ((50 : ℝ) / 100 * (1 + 90 / 100) - 50 / 100) ^ 2⌉ : ℤ) : ℝ)) :=
  ⟨⟨by norm_num, by norm_num, by norm_num, by norm_num, by norm_num⟩,
    calculateSampleSize_pooled_formula
      ⟨50, 90, 0.05, 0.8, 50, 14, 1000, 0.5, 50, "ecommerce", "conversion"⟩
      (by norm_num) (by norm_num) (by norm_num) (by norm_num) (by norm_num)⟩

/-- Counterexample for C4 as stated: at baseline 50%, mde 90%,
alpha 0.05, power 0.8 the planner returns 16, while the ceiling of the
claimed two-radical formula is 15. -/
theorem calculateSampleSize_not_spec_formula :
    calculateSampleSize ⟨50, 90, 0.05, 0.8, 50, 14, 1000, 0.5, 50, "ecommerce", "conversion"⟩ =
      .ok (.real ((16 : ℤ) : ℝ)) ∧
    (⌈specSampleSize ⟨50, 90, 0.05, 0.8, 50, 14, 1000, 0.5, 50, "ecommerce", "conversion"⟩⌉ : ℤ)
      = 15 := by
  have hx := coreA_bounds
  have hy := coreB_bounds
  have h975 : (1 : ℝ) - 0.05 / 2 = 0.975 := by norm_num
  constructor
  · rw [calculateSampleSize_eq_of_valid _ (by norm_num) (by norm_num)]
    show Except.ok (jsCeil (jsDiv
        ((normalInverseFn (1 - (0.05 : ℝ) / 2) + normalInverseFn 0.8) ^ 2 * 2 *
            (((50 : ℝ) / 100 + 50 / 100 * (1 + 90 / 100)) / 2) *
          (1 - ((50 : ℝ) / 100 + 50 / 100 * (1 + 90 / 100)) / 2))
        (((50 : ℝ) / 100 * (1 + 90 / 100) - 50 / 100) ^ 2))) = _
    rw [h975, normalInverseFn_at_0975, normalInverseFn_at_08]
    have hpool : (((50 : ℝ) / 100 + 50 / 100 * (1 + 90 / 100)) / 2) = 0.725 := by norm_num
    have hdenv : (((50 : ℝ) / 100 * (1 + 90 / 100) - 50 / 100) ^ 2) = 0.2025 := by norm_num
    rw [hpool, hdenv]
    rw [jsCeil_jsDiv_eq_real _ _ (by norm_num) 16 ?_]
    rw [Int.ceil_eq_iff]
    have hs1 : (2.7981 : ℝ) < normalInverseCore 0.025 + normalInverseCore 0.2 := by
      linarith [hx.1, hy.1]
    have hs2 : normalInverseCore 0.025 + normalInverseCore 0.2 < (2.8030 : ℝ) := by
      linarith [hx.2, hy.2]
    have hsql : (2.7981 : ℝ) ^ 2 <
        (normalInverseCore 0.025 + normalInverseCore 0.2) ^ 2 := by nlinarith
    have hsqu : (normalInverseCore 0.025 + normalInverseCore 0.2) ^ 2 <
        (2.8030 : ℝ) ^ 2 := by nlinarith
    constructor
    · rw [show ((16 : ℤ) : ℝ) - 1 = 15 by norm_num, lt_div_iff₀ (by norm_num)]
      nlinarith
    · rw [div_le_iff₀ (by norm_num)]
      push_cast
      nlinarith
  · show (⌈(normalInverseFn (1 - (0.05 : ℝ) / 2) *
        Real.sqrt (2 * (((50 : ℝ) / 100 + 50 / 100 * (1 + 90 / 100)) / 2) *
          (1 - ((50 : ℝ) / 100 + 50 / 100 * (1 + 90 / 100)) / 2)) +
        normalInverseFn 0.8 *
        Real.sqrt ((50 : ℝ) / 100 * (1 - 50 / 100) +
          50 / 100 * (1 + 90 / 100) * (1 - 50 / 100 * (1 + 90 / 100)))) ^ 2 /
        (((50 : ℝ) / 100 * (1 + 90 / 100) - 50 / 100) ^ 2)⌉ : ℤ) = 15
    rw [h975, normalInverseFn_at_0975, normalInverseFn_at_08]
    have e1 : 2 * (((50 : ℝ) / 100 + 50 / 100 * (1 + 90 / 100)) / 2) *
        (1 - ((50 : ℝ) / 100 + 50 / 100 * (1 + 90 / 100)) / 2) = 0.39875 := by norm_num
    have e2 : (50 : ℝ) / 100 * (1 - 50 / 100) +
        50 / 100 * (1 + 90 / 100) * (1 - 50 / 100 * (1 + 90 / 100)) = 0.2975 := by norm_num
    have e3 : (((50 : ℝ) / 100 * (1 + 90 / 100) - 50 / 100) ^ 2) = 0.2025 := by norm_num
    rw [e1, e2, e3]
    have hsA := sqrt_039875_bounds
    have hsB := sqrt_02975_bounds
    have hin1 : (1.6947 : ℝ) < normalInverseCore 0.025 * Real.sqrt 0.39875 +
        normalInverseCore 0.2 * Real.sqrt 0.2975 := by
      have ha : (1.9590 : ℝ) * 0.63146 < normalInverseCore 0.025 * Real.sqrt 0.39875 := by
        nlinarith [hx.1, hsA.1]
      have hb : (0.8391 : ℝ) * 0.54543 < normalInverseCore 0.2 * Real.sqrt 0.2975 := by
        nlinarith [hy.1, hsB.1]
      nlinarith
    have hin2 : normalInverseCore 0.025 * Real.sqrt 0.39875 +
        normalInverseCore 0.2 * Real.sqrt 0.2975 < (1.6976 : ℝ) := by
      have ha : normalInverseCore 0.025 * Real.sqrt 0.39875 < (1.9608 : ℝ) * 0.63147 := by
        nlinarith [hx.1, hx.2, hsA.1, hsA.2]
      have hb : normalInverseCore 0.2 * Real.sqrt 0.2975 < (0.8422 : ℝ) * 0.54544 := by
        nlinarith [hy.1, hy.2, hsB.1, hsB.2]
      nlinarith
    rw [Int.ceil_eq_iff]
    constructor
    · rw [show ((15 : ℤ) : ℝ) - 1 = 14 by norm_num, lt_div_iff₀ (by norm_num)]
      nlinarith
    · rw [div_le_iff₀ (by norm_num)]
      push_cast
      nlinarith

end ABTestingPro
